import Mathlib

/-!
Shallow embedding of `main.py` of the Moodify repository (a Flask app that
resolves a mood from a selection or free text and builds a playlist from a
music catalog), together with theorems settling the frozen claims about it.

Modelling conventions:
* Python strings are Lean `String`s; `str.lower` is mapped ASCII-wise
  (all inputs of interest are ASCII).
* Python's `re.findall(r'\b\w+\b', text)` is `tokenize`: the maximal runs
  of word characters (alphanumeric or underscore).
* The external Spotify client `sp` is a `Catalog` record of response
  functions; a call that raises is a `.error` result.
* `list(set(xs))` enumerates a Python set in an unspecified,
  hash-dependent order; it is modelled by an explicit enumeration
  parameter `pySetList : List String → List String`.  A particular run of
  the program corresponds to an enumeration that is duplicate-free and
  preserves membership (`validSetEnum`).
* `random.randint(-10, 10)` during the sort-key computation is a
  `jitter : Nat → Int` parameter (one value per list position, matching
  CPython's one key computation per element).
* The Flask session is `Session := String → String → List String`
  (session key → mood → cached ids), with absent entries read as `[]`,
  matching the code's `session.get(key, {})` / `user_cache.get(mood, [])`.
-/

/-! ### Sentiment analyzer (`SimpleSentimentAnalyzer`) -/

/-- `self.positive_words` from `main.py` (a Python set; only membership is used). -/
def positive_words : List String :=
  ["happy", "joy", "excited", "amazing", "great", "fantastic", "wonderful", "awesome",
   "energetic", "pumped", "motivated", "upbeat", "cheerful", "elated", "euphoric",
   "thrilled", "ecstatic", "delighted", "content", "optimistic", "confident",
   "energized", "vibrant", "lively", "dynamic", "enthusiastic", "passionate"]

/-- `self.negative_words` from `main.py`. -/
def negative_words : List String :=
  ["sad", "depressed", "down", "upset", "disappointed", "hurt", "broken", "lonely",
   "melancholy", "blue", "gloomy", "miserable", "heartbroken", "sorrowful",
   "dejected", "despondent", "mournful", "grief", "anguish", "despair"]

/-- `self.calm_words` from `main.py`. -/
def calm_words : List String :=
  ["calm", "peaceful", "relaxed", "serene", "tranquil", "zen", "meditative",
   "quiet", "still", "gentle", "soft", "mellow", "soothing", "restful",
   "centered", "balanced", "harmonious", "composed", "placid"]

/-- `self.energetic_words` from `main.py`. -/
def energetic_words : List String :=
  ["energetic", "pumped", "hyped", "intense", "powerful", "strong", "fierce",
   "aggressive", "wild", "crazy", "insane", "hardcore", "extreme", "explosive",
   "electric", "charged", "amped", "turbo", "high-energy", "adrenaline"]

/-- `self.chill_words` from `main.py`. -/
def chill_words : List String :=
  ["chill", "relaxed", "laid-back", "easy", "casual", "cool", "smooth",
   "mellow", "flowing", "cruising", "cozy", "comfortable", "easygoing",
   "lowkey", "ambient", "dreamy", "floating", "drifting"]

/-- ASCII `str.lower`. -/
def lowerStr (s : String) : String := (s.toList.map Char.toLower).asString

/-- A word character for `\w` in the regex `\b\w+\b`. -/
def isWordChar (c : Char) : Bool := c.isAlphanum || c = '_'

/-- Helper for `tokenize`: scans the character list, accumulating the
current (reversed) run of word characters. -/
def tokensAux : List Char → List Char → List String
  | [], acc => if acc.isEmpty then [] else [String.mk acc.reverse]
  | c :: cs, acc =>
    if isWordChar c then tokensAux cs (c :: acc)
    else if acc.isEmpty then tokensAux cs []
    else String.mk acc.reverse :: tokensAux cs []

/-- `re.findall(r'\b\w+\b', text)`: the maximal runs of word characters. -/
def tokenize (s : String) : List String := tokensAux s.toList []

/-- Does `l` start with `p`? (Python substring machinery.) -/
def leadsWith : List Char → List Char → Bool
  | [], _ => true
  | _ :: _, [] => false
  | a :: as, b :: bs => a == b && leadsWith as bs

/-- Does `p` occur as a contiguous run inside `l`?  (Python's `p in s`.) -/
def hasRun (p : List Char) : List Char → Bool
  | [] => leadsWith p []
  | c :: cs => leadsWith p (c :: cs) || hasRun p cs

/-- Python's substring test `pat in s`. -/
def strContains (s pat : String) : Bool := hasRun pat.toList s.toList

/-- The `scores` dictionary of `analyze_sentiment`; field order is the
dictionary's insertion order `happy, sad, calm, energetic, chill`. -/
structure Scores where
  happy : Nat
  sad : Nat
  calm : Nat
  energetic : Nat
  chill : Nat
deriving DecidableEq, Repr

/-- One iteration of the `for word in words` loop of `analyze_sentiment`:
five independent `if` statements, each adding 2 to one mood's score. -/
def scoreWord (sc : Scores) (w : String) : Scores :=
  let sc := if positive_words.contains w then { sc with happy := sc.happy + 2 } else sc
  let sc := if negative_words.contains w then { sc with sad := sc.sad + 2 } else sc
  let sc := if calm_words.contains w then { sc with calm := sc.calm + 2 } else sc
  let sc := if energetic_words.contains w then { sc with energetic := sc.energetic + 2 } else sc
  let sc := if chill_words.contains w then { sc with chill := sc.chill + 2 } else sc
  sc

/-- The keyword-counting loop of `analyze_sentiment` starting from the
all-zero dictionary. -/
def baseScores (words : List String) : Scores :=
  words.foldl scoreWord ⟨0, 0, 0, 0, 0⟩

/-- The "context-based scoring" block of `analyze_sentiment`: +1 bumps for
specific phrases in the lowercased text (`calm` has no phrase). -/
def phraseBump (text : String) (sc : Scores) : Scores :=
  let sc := if strContains text "feel good" || strContains text "feeling good" then
    { sc with happy := sc.happy + 1 } else sc
  let sc := if strContains text "feel bad" || strContains text "feeling bad" then
    { sc with sad := sc.sad + 1 } else sc
  let sc := if strContains text "need energy" || strContains text "want energy" then
    { sc with energetic := sc.energetic + 1 } else sc
  let sc := if strContains text "want to relax" || strContains text "need to chill" then
    { sc with chill := sc.chill + 1 } else sc
  sc

/-- The full score computation of `analyze_sentiment` (lowercase, tokenize,
keyword loop, phrase bumps). -/
def computeScores (text : String) : Scores :=
  let t := lowerStr text
  phraseBump t (baseScores (tokenize t))

/-- `max(scores.values())` with values in dictionary order. -/
def maxScore (sc : Scores) : Nat :=
  (((sc.happy.max sc.sad).max sc.calm).max sc.energetic).max sc.chill

/-- The decision tail of `analyze_sentiment`: default `happy` on an
all-zero score, else the `for mood, score in scores.items()` loop, which
returns the first mood in dictionary order whose score equals the max. -/
def pickMood (sc : Scores) : String :=
  let max_score := maxScore sc
  if max_score = 0 then "happy"
  else if sc.happy = max_score then "happy"
  else if sc.sad = max_score then "sad"
  else if sc.calm = max_score then "calm"
  else if sc.energetic = max_score then "energetic"
  else if sc.chill = max_score then "chill"
  else "happy"

/-- `SimpleSentimentAnalyzer.analyze_sentiment` from `main.py`. -/
def analyze_sentiment (text : String) : String :=
  pickMood (computeScores text)

/-! ### Mood resolution in the `/generate_playlist` route -/

/-- The closed mood set checked at line 199 of `main.py`. -/
def moodList : List String := ["happy", "energetic", "chill", "sad", "calm"]

/-- Python's `str.strip()`: whitespace removed from both ends. -/
def pyStrip (s : String) : String :=
  ((s.toList.dropWhile Char.isWhitespace).reverse.dropWhile Char.isWhitespace).reverse.asString

/-- Lines 182–200 of `main.py`: resolving the request's mood.  For a POST
request, `formMood` is `request.form.get('mood')` and `formMoodText` is
`request.form.get('mood_text', '')` (stripped before use); a non-empty
text is analyzed and overrides the selection.  For a GET request only
`argsMood` (`request.args.get('mood')`) is consulted.  The result is the
resolved mood or a `(message, status)` error. -/
def resolveMood (isPost : Bool) (formMood formMoodText argsMood : Option String) :
    Except (String × Nat) String :=
  let step : Except (String × Nat) String :=
    if isPost then
      let user_mood := formMood
      let mood_text := pyStrip (formMoodText.getD "")
      if mood_text ≠ "" then .ok (analyze_sentiment mood_text)
      else if user_mood.getD "" = "" then
        .error ("Please select a mood or describe your mood.", 400)
      else .ok (user_mood.getD "")
    else
      let user_mood := argsMood
      if user_mood.getD "" = "" then .error ("Mood parameter missing.", 400)
      else .ok (user_mood.getD "")
  match step with
  | .ok m => if moodList.contains m then .ok m else .error ("Invalid mood: " ++ m, 400)
  | .error e => .error e

/-! ### Data model for the track pipeline -/

/-- A track object as consumed from the catalog's JSON.  Fields read with
`.get(..., default)` that always default in our claims are collapsed to
their value type; `url` is `external_urls['spotify']` (a `KeyError`, i.e.
`none`, makes per-track processing fail), and `artists` empty makes
`track['artists'][0]` fail. -/
structure Track where
  id : String
  name : String
  artists : List String
  albumName : String
  albumImages : List String
  releaseDate : Option String
  url : Option String
  durationMs : Nat
  popularity : Nat
  explicit : Bool
deriving DecidableEq, Repr

/-- The `track_data` dictionary built for display (lines 338–351). -/
structure TrackData where
  id : String
  name : String
  artist : String
  album : String
  url : String
  mood : String
  duration : String
  duration_ms : Nat
  popularity : Nat
  explicit : Bool
  release_date : String
  album_image : Option String
deriving DecidableEq, Repr

/-- A playlist search result: id plus `playlist['tracks']['total']`. -/
structure PlaylistRef where
  id : String
  total : Nat
deriving DecidableEq, Repr

/-- An item of `sp.playlist_tracks(...)['items']`; `item['track']` may be
`None`. -/
structure PlaylistItem where
  track : Option Track
deriving DecidableEq, Repr

/-- `spotipy` feature keyword arguments (`target_valence = 0.8`, ...);
values are exact rationals, forwarded opaquely to the catalog. -/
abbrev Features := List (String × Rat)

/-- The responses the external Spotify client gives to each call the code
makes; a `.error` models a raised exception (the carried string is the
exception text).  Each field is keyed by the arguments the code passes. -/
structure Catalog where
  topTracks : String → Except String (List Track)
  searchTracks : String → Except String (List Track)
  recommendations : List String → Features → Except String (List Track)
  searchPlaylists : String → Except String (List PlaylistRef)
  playlistTracks : String → Except String (List PlaylistItem)

/-- The Flask session: session key → mood → cached track ids, with absent
entries read as `[]`. -/
abbrev Session := String → String → List String

/-- A fresh session with no cached tracks. -/
def emptySession : Session := fun _ _ => []

/-- `get_cached_tracks` (lines 137–141): reads the user cache stored under
`'track_cache_' + cache_key` and returns its entry for `mood`.
`cache_key` stands for the `get_user_cache_key()` string. -/
def get_cached_tracks (sess : Session) (cache_key mood : String) : List String :=
  sess ("track_cache_" ++ cache_key) mood

/-- `cache_tracks` (lines 143–155), faithfully including its two quirks:
the updated entry is `list(set(old ++ new))[-100:]` — `pySetList` is the
unspecified set-enumeration order — and the updated dictionary is stored
under the key `'track_cache_' + cache_key + '`'` (the source has a stray
backtick inside the f-string), while reads use the key without the
backtick. -/
def cache_tracks (pySetList : List String → List String) (sess : Session)
    (cache_key mood : String) (track_ids : List String) : Session :=
  let user_cache := sess ("track_cache_" ++ cache_key)
  let extended := user_cache mood ++ track_ids
  let enum := pySetList extended
  let bounded := enum.drop (enum.length - 100)
  fun k m =>
    if k = "track_cache_" ++ cache_key ++ "`" then
      if m = mood then bounded else user_cache m
    else sess k m

/-- `pySetList` arguments that are actual enumerations of `set(xs)`:
duplicate-free and with exactly the members of `xs`. -/
def validSetEnum (xs enum : List String) : Bool :=
  enum.Nodup && xs.all (fun x => enum.contains x) && enum.all (fun x => xs.contains x)

/-! ### Static tables -/

/-- `get_popular_search_strategies` from `main.py`. -/
def get_popular_search_strategies (mood : String) : List String :=
  if mood = "happy" then
    ["happy pop hits top charts dance party",
     "feel good music billboard hot 100",
     "uplifting pop rock mainstream hits",
     "celebration party top songs 2024",
     "sunny pop hits radio friendly"]
  else if mood = "energetic" then
    ["high energy workout hits gym music",
     "pump up songs top charts rock metal",
     "intense workout playlist billboard",
     "adrenaline rush top hits electronic",
     "motivation music popular tracks"]
  else if mood = "chill" then
    ["chill pop indie hits relaxing vibes",
     "laid back hits mainstream chill",
     "coffee shop music popular acoustic",
     "sunday morning hits indie pop",
     "chill vibes top tracks ambient"]
  else if mood = "sad" then
    ["sad pop hits emotional ballads",
     "heartbreak songs top charts",
     "emotional pop rock mainstream",
     "melancholy hits indie sad songs",
     "breakup songs popular emotional"]
  else if mood = "calm" then
    ["peaceful pop acoustic hits calm",
     "meditation music popular relaxing",
     "soft pop hits gentle acoustic",
     "calming music mainstream peaceful",
     "zen music popular ambient tracks"]
  else
    ["happy pop hits top charts dance party",
     "feel good music billboard hot 100",
     "uplifting pop rock mainstream hits",
     "celebration party top songs 2024",
     "sunny pop hits radio friendly"]

/-- `get_popular_playlist_queries` from `main.py`. -/
def get_popular_playlist_queries (mood : String) : List String :=
  if mood = "happy" then ["Today's Top Hits happy", "Pop Rising feel good", "Mood Booster"]
  else if mood = "energetic" then ["Beast Mode workout", "Power Hour gym", "Adrenaline Workout"]
  else if mood = "chill" then ["Chill Hits", "Indie Pop chill", "Coffee House"]
  else if mood = "sad" then ["Sad Songs emotional", "Heartbreak Pop", "Life Sucks indie"]
  else if mood = "calm" then ["Peaceful Piano", "Calm meditation", "Acoustic Chill"]
  else ["Today's Top Hits happy", "Pop Rising feel good", "Mood Booster"]

/-- `get_mood_features` from `main.py`; the float literals are exact
rationals. -/
def get_mood_features (mood : String) : Features :=
  if mood = "happy" then
    [("target_valence", 8/10), ("target_energy", 7/10), ("target_danceability", 75/100),
     ("min_valence", 6/10), ("min_energy", 5/10)]
  else if mood = "energetic" then
    [("target_valence", 7/10), ("target_energy", 9/10), ("target_danceability", 8/10),
     ("min_energy", 7/10), ("min_danceability", 6/10)]
  else if mood = "chill" then
    [("target_valence", 5/10), ("target_energy", 3/10), ("target_acousticness", 6/10),
     ("max_energy", 5/10), ("min_acousticness", 3/10)]
  else if mood = "sad" then
    [("target_valence", 25/100), ("target_energy", 3/10), ("target_acousticness", 5/10),
     ("max_valence", 4/10), ("max_energy", 5/10)]
  else if mood = "calm" then
    [("target_valence", 4/10), ("target_energy", 25/100), ("min_tempo", 60), ("max_tempo", 110),
     ("max_energy", 4/10), ("target_acousticness", 5/10)]
  else
    [("target_valence", 8/10), ("target_energy", 7/10), ("target_danceability", 75/100),
     ("min_valence", 6/10), ("min_energy", 5/10)]

/-- `add_popularity_constraint` from `main.py`. -/
def add_popularity_constraint (features : Features) : Features :=
  features ++ [("min_popularity", 40)]

/-! ### The track-selection pipeline (`get_enhanced_tracks_for_mood`) -/

/-- The `time_ranges` list of strategy 1. -/
def timeRanges : List String := ["short_term", "medium_term", "long_term"]

/-- Strategy 1 loop body (lines 230–240): per time range, on success and a
non-empty item list, keep the ids of tracks with popularity > 60; a raised
exception contributes nothing. -/
def strategy1 (cat : Catalog) : List String :=
  timeRanges.foldl (fun acc tr =>
    match cat.topTracks tr with
    | .ok items =>
      if items.isEmpty then acc
      else acc ++ (items.filter (fun t => t.popularity > 60)).map (fun t => t.id)
    | .error _ => acc) []

/-- Strategy 2 loop (lines 248–266): per search query, on success keep the
tracks with popularity > 40 whose id is not cached. -/
def strategy2 (cat : Catalog) (cached : List String) (mood : String) : List Track :=
  (get_popular_search_strategies mood).foldl (fun acc q =>
    match cat.searchTracks q with
    | .ok items =>
      if items.isEmpty then acc
      else acc ++ items.filter (fun t => t.popularity > 40 && !cached.contains t.id)
    | .error _ => acc) []

/-- Strategy 3 loop (lines 269–296): for each seed combination of at least
one seed, request recommendations with the mood features plus the
popularity constraint, keeping tracks with popularity > 60 not cached. -/
def strategy3 (cat : Catalog) (cached : List String) (mood : String)
    (user_top_tracks : List String) (acc0 : List Track) : List Track :=
  if user_top_tracks.isEmpty then acc0
  else
    let seed_combinations :=
      [user_top_tracks.take 3,
       if user_top_tracks.length > 3 then (user_top_tracks.drop 3).take 3
       else user_top_tracks.take 3]
    let mood_features := get_mood_features mood
    seed_combinations.foldl (fun acc seeds =>
      if seeds.length ≥ 1 then
        match cat.recommendations (seeds.take 3) (add_popularity_constraint mood_features) with
        | .ok tracks => acc ++ tracks.filter (fun t => t.popularity > 60 && !cached.contains t.id)
        | .error _ => acc
      else acc) acc0

/-- Inner loop of strategy 4 over the playlists of one query's results; an
exception (`.error`) aborts with the tracks appended so far. -/
def playlistLoop (cat : Catalog) (cached : List String) :
    List PlaylistRef → List Track → Except (List Track) (List Track)
  | [], acc => .ok acc
  | p :: ps, acc =>
    if p.total > 0 then
      match cat.playlistTracks p.id with
      | .error _ => .error acc
      | .ok items =>
        let found := items.filterMap (fun it =>
          match it.track with
          | some t => if t.popularity > 40 && !cached.contains t.id then some t else none
          | none => none)
        playlistLoop cat cached ps (acc ++ found)
    else playlistLoop cat cached ps acc

/-- Strategy 4 (lines 298–313): a single failure boundary wraps the whole
loop over playlist queries, so an exception keeps whatever was already
appended to `all_tracks` and abandons the rest of the strategy. -/
def strategy4 (cat : Catalog) (cached : List String) :
    List String → List Track → List Track
  | [], acc => acc
  | q :: qs, acc =>
    match cat.searchPlaylists q with
    | .error _ => acc
    | .ok pls =>
      match playlistLoop cat cached pls acc with
      | .error partial_acc => partial_acc
      | .ok acc' => strategy4 cat cached qs acc'

/-- The dedup loop of lines 315–322 (`seen_ids` starts empty; first
occurrence of each id is kept). -/
def dedupLoop : List Track → List String → List Track
  | [], _ => []
  | t :: ts, seen =>
    if seen.contains t.id then dedupLoop ts seen
    else t :: dedupLoop ts (t.id :: seen)

/-- Per-track processing (lines 332–355): builds the display record;
`track['artists'][0]` on an empty artist list or a missing
`external_urls['spotify']` raises, and the `except: continue` skips the
track. -/
def processTrack (mood : String) (t : Track) : Option TrackData :=
  match t.artists with
  | [] => none
  | artist0 :: _ =>
    match t.url with
    | none => none
    | some u =>
      let duration_min := t.durationMs / 60000
      let duration_sec := (t.durationMs % 60000) / 1000
      some {
        id := t.id
        name := t.name
        artist := artist0
        album := t.albumName
        url := u
        mood := mood
        duration := toString duration_min ++ ":" ++
          (if duration_sec < 10 then "0" else "") ++ toString duration_sec
        duration_ms := t.durationMs
        popularity := t.popularity
        explicit := t.explicit
        release_date := t.releaseDate.getD "Unknown"
        album_image := t.albumImages.head? }

/-- `get_enhanced_tracks_for_mood` from `main.py` (lines 216–365).
Returns the processed track list (already truncated to 20) together with
the updated session.  The enclosing `try` of the source can only be left
through one of the modelled per-strategy boundaries, so the
`return []`-on-exception path of line 365 is reached exactly when the
merged, processed list is empty. -/
def get_enhanced_tracks_for_mood (cat : Catalog)
    (pySetList : List String → List String) (jitter : Nat → Int)
    (sess : Session) (cache_key user_mood : String) (avoid_recent : Bool) :
    List TrackData × Session :=
  let cached_tracks := if avoid_recent then get_cached_tracks sess cache_key user_mood else []
  -- Strategy 1: ids of popular top tracks, set-deduplicated, minus cached
  let user_top_tracks := strategy1 cat
  let user_top_tracks := (pySetList user_top_tracks).filter (fun tid => !cached_tracks.contains tid)
  -- Strategy 2: popular search results
  let all_tracks := strategy2 cat cached_tracks user_mood
  -- Strategy 3: recommendations from seed combinations
  let all_tracks := strategy3 cat cached_tracks user_mood user_top_tracks all_tracks
  -- Strategy 4: tracks of popular playlists
  let all_tracks := strategy4 cat cached_tracks (get_popular_playlist_queries user_mood) all_tracks
  -- Remove duplicates (first occurrence wins)
  let unique_tracks := dedupLoop all_tracks []
  -- Stable sort by popularity plus per-position jitter, descending
  let keyed := unique_tracks.enum.map (fun p => ((p.2.popularity : Int) + jitter p.1, p.2))
  let sorted := (keyed.mergeSort (fun a b => decide (b.1 ≤ a.1))).map (fun p => p.2)
  let selected_tracks := sorted.take 30
  let processed_tracks := selected_tracks.filterMap (processTrack user_mood)
  let track_ids := processed_tracks.map (fun d => d.id)
  let sess' := cache_tracks pySetList sess cache_key user_mood track_ids
  (processed_tracks.take 20, sess')

/-! ### The `/generate_playlist` route -/

/-- The outcome of the `/generate_playlist` route. -/
inductive Response where
  | redirect : Response
  | err : String → Nat → Response
  | render : String → List TrackData → Response
deriving DecidableEq, Repr

/-- `generate_playlist` from `main.py` (lines 174–212): token check, mood
resolution, track selection, and the empty-result guard that turns an
empty selection into a 500 error. -/
def generate_playlist (cat : Catalog) (pySetList : List String → List String)
    (jitter : Nat → Int) (sess : Session) (cache_key : String) (tokenValid : Bool)
    (isPost : Bool) (formMood formMoodText argsMood : Option String) :
    Response × Session :=
  if !tokenValid then (.redirect, sess)
  else
    match resolveMood isPost formMood formMoodText argsMood with
    | .error (msg, code) => (.err msg code, sess)
    | .ok user_mood =>
      let (tracks, sess') :=
        get_enhanced_tracks_for_mood cat pySetList jitter sess cache_key user_mood true
      if tracks.isEmpty then
        (.err "Sorry, couldn't generate a playlist at this time. Please try again." 500, sess')
      else (.render user_mood tracks, sess')

/-! ### The `/create_spotify_playlist` route -/

/-- A call made to the catalog client during playlist materialization. -/
inductive CatCall where
  | currentUser : CatCall
  | createPlaylist (userId name description : String) (isPublic : Bool) : CatCall
  | addItems (playlistId : String) (trackUris : List String) : CatCall
deriving DecidableEq, Repr

/-- The catalog responses used by `/create_spotify_playlist`; `.error`
carries `str(e)` of the raised exception. -/
structure PlaylistCatalog where
  currentUserId : Except String String
  created : Except String (String × String)
  addResult : Except String Unit

/-- The JSON responses of `/create_spotify_playlist`. -/
inductive JsonResp where
  | jerr (msg : String) (code : Nat) : JsonResp
  | jok (playlistUrl playlistName : String) : JsonResp
deriving DecidableEq, Repr

/-- ASCII `str.title()`: the first letter of every alphabetic run is
uppercased and the rest lowercased. -/
def pyTitle (s : String) : String :=
  (s.toList.foldl (fun st c =>
      let prevAlpha := st.1
      let out := st.2
      if c.isAlpha then
        (true, out ++ [if prevAlpha then c.toLower else c.toUpper])
      else (false, out ++ [c]))
    ((false : Bool), ([] : List Char))).2.asString

/-- `create_spotify_playlist` from `main.py` (lines 545–590).  `now` is
the formatted timestamp string; `mood`/`track_ids` are the JSON body
fields (`data.get('mood')`, `data.get('track_ids', [])`).  The second
component lists the catalog calls performed, in order. -/
def create_spotify_playlist (pcat : PlaylistCatalog) (tokenValid : Bool)
    (now : String) (mood : Option String) (track_ids : List String) :
    JsonResp × List CatCall :=
  if !tokenValid then (.jerr "Not authenticated" 401, [])
  else
    let moodS := mood.getD ""
    if moodS = "" || track_ids.isEmpty then (.jerr "Missing mood or track_ids" 400, [])
    else
      match pcat.currentUserId with
      | .error e => (.jerr e 500, [.currentUser])
      | .ok user_id =>
        let playlist_name := "Moodify - " ++ pyTitle moodS ++ " Mood (" ++ now ++ ")"
        let playlist_description := "A personalized " ++ moodS ++
          " mood playlist curated by Moodify based on your listening preferences and history."
        match pcat.created with
        | .error e =>
          (.jerr e 500, [.currentUser, .createPlaylist user_id playlist_name playlist_description false])
        | .ok (playlist_id, playlist_url) =>
          let track_uris := track_ids.map (fun tid => "spotify:track:" ++ tid)
          match pcat.addResult with
          | .error e =>
            (.jerr e 500,
             [.currentUser, .createPlaylist user_id playlist_name playlist_description false,
              .addItems playlist_id track_uris])
          | .ok _ =>
            (.jok playlist_url playlist_name,
             [.currentUser, .createPlaylist user_id playlist_name playlist_description false,
              .addItems playlist_id track_uris])

/-! ### Specification-side definitions (used to state the claims) -/

/-- Deduplication as the spec words it: keep the first occurrence of each
catalog id, drop the later ones. -/
def keepFirstOcc : List Track → List Track
  | [] => []
  | t :: ts => t :: keepFirstOcc (ts.filter (fun u => u.id ≠ t.id))
termination_by l => l.length
decreasing_by
  simp only [List.length_cons]
  exact Nat.lt_succ_of_le (List.length_filter_le _ _)

/-- The score of a named mood in a `Scores` record. -/
def scoreOf (sc : Scores) : String → Nat
  | "happy" => sc.happy
  | "sad" => sc.sad
  | "calm" => sc.calm
  | "energetic" => sc.energetic
  | "chill" => sc.chill
  | _ => 0

/-- The moods in the `scores` dictionary's enumeration order. -/
def dictOrder : List String := ["happy", "sad", "calm", "energetic", "chill"]

/-- The spec-side maximal score: fold of `max` over the values in
dictionary order. -/
def specMaxScore (sc : Scores) : Nat :=
  [sc.happy, sc.sad, sc.calm, sc.energetic, sc.chill].foldl Nat.max 0

/-- Is a response a successful render carrying an empty track list? -/
def isEmptyRender : Response → Bool
  | .render _ [] => true
  | _ => false

/-! ### Helper lemmas: sentiment scores -/

theorem scoreWord_happy (sc : Scores) (w : String) :
    (scoreWord sc w).happy = sc.happy + (if positive_words.contains w then 2 else 0) := by
  simp only [scoreWord]
  split_ifs <;> rfl

theorem scoreWord_sad (sc : Scores) (w : String) :
    (scoreWord sc w).sad = sc.sad + (if negative_words.contains w then 2 else 0) := by
  simp only [scoreWord]
  split_ifs <;> rfl

theorem scoreWord_calm (sc : Scores) (w : String) :
    (scoreWord sc w).calm = sc.calm + (if calm_words.contains w then 2 else 0) := by
  simp only [scoreWord]
  split_ifs <;> rfl

theorem scoreWord_energetic (sc : Scores) (w : String) :
    (scoreWord sc w).energetic = sc.energetic + (if energetic_words.contains w then 2 else 0) := by
  simp only [scoreWord]
  split_ifs <;> rfl

theorem scoreWord_chill (sc : Scores) (w : String) :
    (scoreWord sc w).chill = sc.chill + (if chill_words.contains w then 2 else 0) := by
  simp only [scoreWord]
  split_ifs <;> rfl

theorem foldl_scoreWord_happy (ws : List String) (sc : Scores) :
    (ws.foldl scoreWord sc).happy =
      sc.happy + 2 * ws.countP (fun w => positive_words.contains w) := by
  induction ws generalizing sc with
  | nil => simp
  | cons w ws ih =>
    rw [List.foldl_cons, ih, scoreWord_happy, List.countP_cons]
    split_ifs <;> simp <;> ring

theorem foldl_scoreWord_sad (ws : List String) (sc : Scores) :
    (ws.foldl scoreWord sc).sad =
      sc.sad + 2 * ws.countP (fun w => negative_words.contains w) := by
  induction ws generalizing sc with
  | nil => simp
  | cons w ws ih =>
    rw [List.foldl_cons, ih, scoreWord_sad, List.countP_cons]
    split_ifs <;> simp <;> ring

theorem foldl_scoreWord_calm (ws : List String) (sc : Scores) :
    (ws.foldl scoreWord sc).calm =
      sc.calm + 2 * ws.countP (fun w => calm_words.contains w) := by
  induction ws generalizing sc with
  | nil => simp
  | cons w ws ih =>
    rw [List.foldl_cons, ih, scoreWord_calm, List.countP_cons]
    split_ifs <;> simp <;> ring

theorem foldl_scoreWord_energetic (ws : List String) (sc : Scores) :
    (ws.foldl scoreWord sc).energetic =
      sc.energetic + 2 * ws.countP (fun w => energetic_words.contains w) := by
  induction ws generalizing sc with
  | nil => simp
  | cons w ws ih =>
    rw [List.foldl_cons, ih, scoreWord_energetic, List.countP_cons]
    split_ifs <;> simp <;> ring

theorem foldl_scoreWord_chill (ws : List String) (sc : Scores) :
    (ws.foldl scoreWord sc).chill =
      sc.chill + 2 * ws.countP (fun w => chill_words.contains w) := by
  induction ws generalizing sc with
  | nil => simp
  | cons w ws ih =>
    rw [List.foldl_cons, ih, scoreWord_chill, List.countP_cons]
    split_ifs <;> simp <;> ring

theorem phraseBump_happy (t : String) (sc : Scores) :
    (phraseBump t sc).happy = sc.happy +
      (if strContains t "feel good" || strContains t "feeling good" then 1 else 0) := by
  simp only [phraseBump]
  split_ifs <;> rfl

theorem phraseBump_sad (t : String) (sc : Scores) :
    (phraseBump t sc).sad = sc.sad +
      (if strContains t "feel bad" || strContains t "feeling bad" then 1 else 0) := by
  simp only [phraseBump]
  split_ifs <;> rfl

theorem phraseBump_calm (t : String) (sc : Scores) :
    (phraseBump t sc).calm = sc.calm := by
  simp only [phraseBump]
  split_ifs <;> rfl

theorem phraseBump_energetic (t : String) (sc : Scores) :
    (phraseBump t sc).energetic = sc.energetic +
      (if strContains t "need energy" || strContains t "want energy" then 1 else 0) := by
  simp only [phraseBump]
  split_ifs <;> rfl

theorem phraseBump_chill (t : String) (sc : Scores) :
    (phraseBump t sc).chill = sc.chill +
      (if strContains t "want to relax" || strContains t "need to chill" then 1 else 0) := by
  simp only [phraseBump]
  split_ifs <;> rfl

theorem specMaxScore_eq_maxScore (sc : Scores) : specMaxScore sc = maxScore sc := by
  simp [specMaxScore, maxScore, List.foldl, Nat.zero_max]

/-- The decision tail returns, among the moods reaching the maximal score,
the first one in the dictionary's enumeration order (and `happy` on an
all-zero score). -/
theorem pickMood_eq_first_max (sc : Scores) :
    pickMood sc = if specMaxScore sc = 0 then "happy"
      else (dictOrder.find? (fun m => decide (scoreOf sc m = specMaxScore sc))).getD "happy" := by
  rw [specMaxScore_eq_maxScore]
  simp only [pickMood, dictOrder, List.find?, scoreOf]
  split_ifs <;> simp_all

/-- The analyzer only ever returns a member of the closed mood set. -/
theorem pickMood_mem_moodList (sc : Scores) : pickMood sc ∈ moodList := by
  simp only [pickMood]
  split_ifs <;> decide

/-! ### Helper lemmas: deduplication and the pipeline -/

theorem mem_dedupLoop_not_seen {x : String} :
    ∀ (l : List Track) (seen : List String),
      x ∈ (dedupLoop l seen).map (fun t => t.id) → seen.contains x = false := by
  intro l
  induction l with
  | nil => intro seen h; simp [dedupLoop] at h
  | cons t ts ih =>
    intro seen h
    simp only [dedupLoop] at h
    by_cases hc : seen.contains t.id
    · rw [if_pos hc] at h
      exact ih seen h
    · rw [if_neg hc] at h
      simp only [List.map_cons, List.mem_cons] at h
      rcases h with h | h
      · subst h
        simpa using hc
      · have := ih (t.id :: seen) h
        simp only [List.contains_cons, Bool.or_eq_false_iff] at this
        exact this.2

theorem dedupLoop_ids_nodup : ∀ (l : List Track) (seen : List String),
    ((dedupLoop l seen).map (fun t => t.id)).Nodup := by
  intro l
  induction l with
  | nil => intro seen; simp [dedupLoop]
  | cons t ts ih =>
    intro seen
    simp only [dedupLoop]
    by_cases hc : seen.contains t.id
    · rw [if_pos hc]; exact ih seen
    · rw [if_neg hc]
      simp only [List.map_cons, List.nodup_cons]
      refine ⟨fun hmem => ?_, ih (t.id :: seen)⟩
      have := mem_dedupLoop_not_seen ts (t.id :: seen) hmem
      simp [List.contains_cons] at this

theorem dedupLoop_eq_keepFirstOcc_aux : ∀ (l : List Track) (seen : List String),
    dedupLoop l seen = keepFirstOcc (l.filter (fun t => !seen.contains t.id)) := by
  intro l
  induction l with
  | nil => intro seen; simp [dedupLoop, keepFirstOcc]
  | cons t ts ih =>
    intro seen
    by_cases hm : t.id ∈ seen
    · have h1 : dedupLoop (t :: ts) seen = dedupLoop ts seen := by
        simp [dedupLoop, hm]
      have h2 : (t :: ts).filter (fun u => !seen.contains u.id) =
          ts.filter (fun u => !seen.contains u.id) := by
        simp [List.filter_cons, hm]
      rw [h1, h2, ih]
    · have h1 : dedupLoop (t :: ts) seen = t :: dedupLoop ts (t.id :: seen) := by
        simp [dedupLoop, hm]
      have h2 : (t :: ts).filter (fun u => !seen.contains u.id) =
          t :: ts.filter (fun u => !seen.contains u.id) := by
        simp [List.filter_cons, hm]
      rw [h1, h2]
      simp only [keepFirstOcc]
      rw [ih (t.id :: seen), List.filter_filter]
      have hfeq : ts.filter (fun u => !(t.id :: seen).contains u.id) =
          ts.filter (fun u => decide (u.id ≠ t.id) && !seen.contains u.id) := by
        apply List.filter_congr
        intro u _
        by_cases hia : u.id = t.id <;> by_cases hib : u.id ∈ seen <;>
          simp [hia, hib, List.contains_cons]
      rw [hfeq]

theorem dedupLoop_eq_keepFirstOcc (l : List Track) : dedupLoop l [] = keepFirstOcc l := by
  rw [dedupLoop_eq_keepFirstOcc_aux]
  simp

theorem processTrack_id {mood : String} {t : Track} {d : TrackData} :
    processTrack mood t = some d → d.id = t.id := by
  intro h
  simp only [processTrack] at h
  split at h
  · simp at h
  · split at h
    · simp at h
    · simp only [Option.some.injEq] at h
      subst h
      rfl

theorem filterMap_processTrack_ids_sublist (mood : String) : ∀ (l : List Track),
    ((l.filterMap (processTrack mood)).map (fun d => d.id)).Sublist
      (l.map (fun t => t.id)) := by
  intro l
  induction l with
  | nil => exact List.nil_sublist _
  | cons t ts ih =>
    rcases h : processTrack mood t with _ | d
    · rw [List.filterMap_cons_none h, List.map_cons]
      exact ih.cons t.id
    · rw [List.filterMap_cons_some h, List.map_cons, List.map_cons]
      rw [processTrack_id h]
      exact ih.cons₂ t.id

/-- Id-distinctness is preserved through the whole tail of the pipeline
(dedup, jittered sort, truncation to 30, per-track processing, truncation
to 20). -/
theorem ids_nodup_after_pipeline (all : List Track) (jit : Nat → Int) (mood : String) :
    ((((((((dedupLoop all []).enum.map
        (fun p => ((p.2.popularity : Int) + jit p.1, p.2))).mergeSort
        (fun a b => decide (b.1 ≤ a.1))).map (fun p => p.2)).take 30).filterMap
        (processTrack mood)).take 20).map (fun d => d.id)).Nodup := by
  have h0 : ((dedupLoop all []).map (fun t => t.id)).Nodup := dedupLoop_ids_nodup all []
  set u : List Track := dedupLoop all [] with hu
  set keyed : List (Int × Track) :=
    u.enum.map (fun p => ((p.2.popularity : Int) + jit p.1, p.2)) with hk
  set sorted : List Track :=
    (keyed.mergeSort (fun a b => decide (b.1 ≤ a.1))).map (fun p => p.2) with hs
  have hmap : keyed.map (fun p => p.2) = u := by
    rw [hk, List.map_map]
    exact List.enum_map_snd u
  have hperm : sorted.Perm u := by
    rw [hs, ← hmap]
    exact (List.mergeSort_perm keyed _).map _
  have h1 : (sorted.map (fun t => t.id)).Nodup :=
    (hperm.map (fun t => t.id)).symm.nodup h0
  have h2 : ((sorted.take 30).map (fun t => t.id)).Nodup :=
    ((List.take_sublist 30 sorted).map (fun t => t.id)).nodup h1
  have h3 : (((sorted.take 30).filterMap (processTrack mood)).map (fun d => d.id)).Nodup :=
    (filterMap_processTrack_ids_sublist mood (sorted.take 30)).nodup h2
  exact ((List.take_sublist 20 ((sorted.take 30).filterMap (processTrack mood))).map
    (fun d => d.id)).nodup h3

/-! ### Helper lemmas: total catalog failure -/

/-- A catalog on which every call raises, as in the spec's "simulated
catalog always errors" scenario. -/
def failingCatalog : Catalog :=
  { topTracks := fun _ => .error "API error",
    searchTracks := fun _ => .error "API error",
    recommendations := fun _ _ => .error "API error",
    searchPlaylists := fun _ => .error "API error",
    playlistTracks := fun _ => .error "API error" }

theorem foldl_fixed {α β : Type _} (f : β → α → β) (h : ∀ acc a, f acc a = acc) :
    ∀ (l : List α) (b : β), l.foldl f b = b := by
  intro l
  induction l with
  | nil => intro b; rfl
  | cons x xs ih => intro b; rw [List.foldl_cons, h]; exact ih b

theorem strategy2_failing (cached : List String) (mood : String) :
    strategy2 failingCatalog cached mood = [] := by
  simp only [strategy2]
  exact foldl_fixed _ (fun acc q => rfl) _ []

theorem strategy3_failing (cached : List String) (mood : String)
    (user_top_tracks : List String) (acc0 : List Track) :
    strategy3 failingCatalog cached mood user_top_tracks acc0 = acc0 := by
  simp only [strategy3]
  split
  · rfl
  · exact foldl_fixed _ (fun acc seeds => by split <;> rfl) _ acc0

theorem strategy4_failing (cached : List String) : ∀ (qs : List String) (acc : List Track),
    strategy4 failingCatalog cached qs acc = acc := by
  intro qs
  cases qs with
  | nil => intro acc; rfl
  | cons q qs => intro acc; rfl

/-- With an always-failing catalog the selection returns no tracks and the
session update caches the empty id list. -/
theorem get_enhanced_failing (pySetList : List String → List String) (jitter : Nat → Int)
    (sess : Session) (cache_key mood : String) :
    get_enhanced_tracks_for_mood failingCatalog pySetList jitter sess cache_key mood true =
      ([], cache_tracks pySetList sess cache_key mood []) := by
  simp [get_enhanced_tracks_for_mood, strategy2_failing, strategy3_failing,
    strategy4_failing, dedupLoop]

/-! ### Concrete fixtures for the cache-bug claims -/

/-- A well-formed track returned by the simulated catalog. -/
def trackT1 : Track :=
  { id := "t1", name := "Song", artists := ["Artist"], albumName := "Album",
    albumImages := [], releaseDate := none, url := some "https://open.example/t1",
    durationMs := 61000, popularity := 50, explicit := false }

/-- A catalog on which only track search succeeds, always returning the
single popular track `trackT1`; every run against it yields exactly
`[trackT1]`. -/
def catOneTrack : Catalog :=
  { topTracks := fun _ => .error "API error",
    searchTracks := fun _ => .ok [trackT1],
    recommendations := fun _ _ => .error "API error",
    searchPlaylists := fun _ => .error "API error",
    playlistTracks := fun _ => .error "API error" }

/-- 101 pairwise distinct track ids, `id0` (appended first, hence oldest)
through `id100` (appended last, hence newest). -/
def ids101 : List String := (List.range 101).map (fun i => "id" ++ toString i)

/-- One admissible enumeration order for Python's `list(set(...))` (string
hashing is randomized, so any duplicate-free membership-preserving order
can occur): the last distinct element is listed first. -/
def rotEnum : List String → List String := fun xs =>
  let e := xs.eraseDups
  e.drop 100 ++ e.take 100

/-- A playlist catalog that would succeed if called. -/
def pcatOk : PlaylistCatalog :=
  { currentUserId := .ok "user1", created := .ok ("pl1", "https://open.example/pl1"),
    addResult := .ok () }

/-! ### Claim theorems -/

/-- C1 (counterexample): a POST request carrying the in-set selection
`sad` together with the non-empty free text `happy` resolves to `happy`,
the analysis of the text — not to the selection.  The claim that the
explicit choice wins over the text, and that the text does not influence
the result, is false. -/
theorem selection_overridden_by_text_cex :
    moodList.contains "sad" = true ∧ pyStrip "happy" ≠ "" ∧
    resolveMood true (some "sad") (some "happy") none = .ok "happy" ∧
    ("happy" : String) ≠ "sad" := by
  refine ⟨by decide, by decide, rfl, by decide⟩

/-- C1 (amended): whenever the free text is non-empty after stripping, the
resolved mood is the sentiment analysis of the stripped text, whatever the
selection is — the text wins and the selection does not influence the
result.  The selection is consulted only when the text is absent or
blank. -/
theorem nonempty_text_determines_mood (formMood argsMood : Option String) (txt : String)
    (h : pyStrip txt ≠ "") :
    resolveMood true formMood (some txt) argsMood = .ok (analyze_sentiment (pyStrip txt)) := by
  have hmem : analyze_sentiment (pyStrip txt) ∈ moodList := pickMood_mem_moodList _
  simp [resolveMood, h, hmem]

/-- C1 (witness): the amended claim at the concrete input of the
counterexample. -/
theorem nonempty_text_determines_mood_witness :
    pyStrip "happy" ≠ "" ∧
    resolveMood true (some "sad") (some "happy") none = .ok "happy" := by
  constructor
  · decide
  · have h := nonempty_text_determines_mood (some "sad") none "happy" (by decide)
    rw [h]
    rfl

/-- The display record produced for `trackT1`. -/
def d1 : TrackData :=
  { id := "t1", name := "Song", artist := "Artist", album := "Album",
    url := "https://open.example/t1", mood := "happy", duration := "1:01",
    duration_ms := 61000, popularity := 50, explicit := false,
    release_date := "Unknown", album_image := none }

/-- Evaluation of one selection run against `catOneTrack` from any session
whose (read) recency cache for `("K", "happy")` is empty: the run returns
exactly `[d1]` and performs the (mis-keyed) cache update with `["t1"]`. -/
theorem run_catOneTrack (sess : Session) (h : get_cached_tracks sess "K" "happy" = []) :
    get_enhanced_tracks_for_mood catOneTrack List.eraseDups (fun _ => 0) sess "K" "happy" true =
      ([d1], cache_tracks List.eraseDups sess "K" "happy" ["t1"]) := by
  simp only [get_enhanced_tracks_for_mood, h, if_true]
  have h2 : strategy2 catOneTrack [] "happy" =
      [trackT1, trackT1, trackT1, trackT1, trackT1] := rfl
  have h3 : ∀ utt acc, strategy3 catOneTrack [] "happy" utt acc = acc := by
    intro utt acc
    simp only [strategy3]
    split
    · rfl
    · exact foldl_fixed _ (fun a s => by split <;> rfl) _ acc
  have h4 : ∀ qs acc, strategy4 catOneTrack [] qs acc = acc := by
    intro qs acc
    cases qs with
    | nil => rfl
    | cons q qs => rfl
  rw [h2, h3, h4]
  have hd : dedupLoop [trackT1, trackT1, trackT1, trackT1, trackT1] [] = [trackT1] := rfl
  rw [hd]
  have hk : ([trackT1].enum.map (fun p => ((p.2.popularity : Int) + (fun _ => (0:Int)) p.1, p.2))) =
      [((50 : Int), trackT1)] := rfl
  rw [hk, List.mergeSort_singleton]
  rfl

/-- C2: the code violates the recency-cache round trip.  `cache_tracks`
stores the updated cache under the session key
`'track_cache_' + key + '`'` (a stray backtick in the f-string at line 155
of `main.py`) while `get_cached_tracks` reads `'track_cache_' + key`, so
after a run that returned track `t1` the recency cache that is consulted
is still empty, and a second identical run returns `t1` again.  (The
enumeration `List.eraseDups` used for `list(set(...))` is admissible:
`validSetEnum` holds at the lists it is applied to.) -/
theorem recency_cache_not_consulted_bug :
    ((get_enhanced_tracks_for_mood catOneTrack List.eraseDups (fun _ => 0) emptySession
        "K" "happy" true).1.map (fun d => d.id) = ["t1"])
    ∧ get_cached_tracks (get_enhanced_tracks_for_mood catOneTrack List.eraseDups (fun _ => 0)
        emptySession "K" "happy" true).2 "K" "happy" = []
    ∧ ((get_enhanced_tracks_for_mood catOneTrack List.eraseDups (fun _ => 0)
        (get_enhanced_tracks_for_mood catOneTrack List.eraseDups (fun _ => 0) emptySession
          "K" "happy" true).2 "K" "happy" true).1.map (fun d => d.id) = ["t1"])
    ∧ validSetEnum [] (List.eraseDups []) = true
    ∧ validSetEnum ["t1"] (List.eraseDups ["t1"]) = true := by
  have h0 : get_cached_tracks emptySession "K" "happy" = [] := rfl
  have r1 := run_catOneTrack emptySession h0
  have hs1 : get_cached_tracks (get_enhanced_tracks_for_mood catOneTrack List.eraseDups
      (fun _ => 0) emptySession "K" "happy" true).2 "K" "happy" = [] := by
    rw [r1]
    rfl
  have r2 := run_catOneTrack (get_enhanced_tracks_for_mood catOneTrack List.eraseDups
      (fun _ => 0) emptySession "K" "happy" true).2 hs1
  refine ⟨by rw [r1]; rfl, hs1, by rw [r2]; rfl, by decide, by decide⟩

/-- C3: eviction is not oldest-first.  A single `cache_tracks` call
appending 101 distinct ids (`id0` oldest … `id100` newest) stores, under
an admissible `list(set(...))` enumeration order (`rotEnum`, which lists
the newest element first — Python string hashing is randomized, so any
duplicate-free membership-preserving order can occur), exactly the 100
oldest ids: the newest id is the one evicted.  Moreover the update is
stored under the backticked key, so the cache that `get_cached_tracks`
reads still holds nothing at all. -/
theorem cache_eviction_not_oldest_bug :
    validSetEnum ids101 (rotEnum ids101) = true
    ∧ (cache_tracks rotEnum emptySession "K" "happy" ids101) "track_cache_K`" "happy" =
        (List.range 100).map (fun i => "id" ++ toString i)
    ∧ ¬ ("id100" ∈ (cache_tracks rotEnum emptySession "K" "happy" ids101) "track_cache_K`" "happy")
    ∧ get_cached_tracks (cache_tracks rotEnum emptySession "K" "happy" ids101) "K" "happy" = [] := by
  refine ⟨by decide, by decide, by decide, rfl⟩

/-- C4: when every retrieval strategy fails (always-erroring catalog), the
selection yields the empty list and the `/generate_playlist` route turns
it into the 500 "couldn't generate a playlist" error — the no-results
signal of the code; and for every catalog and input whatsoever, the route
never renders a successful page with an empty track list. -/
theorem all_strategies_failing_never_empty_success :
    (∀ (pySetList : List String → List String) (jitter : Nat → Int) (sess : Session)
        (cache_key mood : String),
      (get_enhanced_tracks_for_mood failingCatalog pySetList jitter sess cache_key mood
        true).1 = [])
    ∧ (∀ (pySetList : List String → List String) (jitter : Nat → Int) (sess : Session)
        (cache_key : String),
      (generate_playlist failingCatalog pySetList jitter sess cache_key true true
        (some "happy") none none).1 =
        .err "Sorry, couldn't generate a playlist at this time. Please try again." 500)
    ∧ (∀ (cat : Catalog) (pySetList : List String → List String) (jitter : Nat → Int)
        (sess : Session) (cache_key : String) (tokenValid isPost : Bool)
        (formMood formMoodText argsMood : Option String),
      isEmptyRender (generate_playlist cat pySetList jitter sess cache_key tokenValid
        isPost formMood formMoodText argsMood).1 = false) := by
  refine ⟨?_, ?_, ?_⟩
  · intro ps j sess ck mood
    rw [get_enhanced_failing]
  · intro ps j sess ck
    have hr : resolveMood true (some "happy") none none = Except.ok "happy" := rfl
    simp [generate_playlist, hr, get_enhanced_failing]
  · intro cat ps j sess ck tv isPost fm ft am
    simp only [generate_playlist]
    cases tv
    · rfl
    · simp only [Bool.not_true, Bool.false_eq_true, if_false]
      rcases hres : resolveMood isPost fm ft am with e | m
      · rcases e with ⟨msg, code⟩
        rfl
      · dsimp only
        rcases htr : (get_enhanced_tracks_for_mood cat ps j sess ck m true).1 with _ | ⟨t, ts⟩
        · rfl
        · rfl

/-- C5 (counterexample): on the text "sad calm" the scores of `sad` and
`calm` are tied at the maximal score 2, yet the analyzer returns `sad`,
not the claimed default `happy`. -/
theorem tie_returns_first_mood_cex :
    (computeScores "sad calm").sad = 2 ∧ (computeScores "sad calm").calm = 2 ∧
    (computeScores "sad calm").happy = 0 ∧
    specMaxScore (computeScores "sad calm") = 2 ∧
    analyze_sentiment "sad calm" = "sad" ∧ ("sad" : String) ≠ "happy" := by
  refine ⟨rfl, rfl, rfl, rfl, rfl, by decide⟩

/-- C5 (amended): the analyzer returns the first mood in the score
dictionary's enumeration order (`happy, sad, calm, energetic, chill`)
among those reaching the maximal score — in particular the mood with the
strictly highest score when it is unique — and returns `happy` when all
five scores are zero.  A tie yields `happy` only when `happy` is among the
tied moods. -/
theorem analyzer_returns_first_maximal_mood (text : String) :
    analyze_sentiment text =
      if specMaxScore (computeScores text) = 0 then "happy"
      else (dictOrder.find? (fun m =>
        decide (scoreOf (computeScores text) m = specMaxScore (computeScores text)))).getD
        "happy" :=
  pickMood_eq_first_max (computeScores text)

/-- C6: every mood's score is 2 points per word token of the lowercased
text lying in that mood's keyword set, plus 1 point when one of the
mood's phrases occurs in the lowercased text (`calm` has no associated
phrase, so its score is the pure token count). -/
theorem sentiment_score_formula (text : String) :
    ((computeScores text).happy =
      2 * (tokenize (lowerStr text)).countP (fun w => positive_words.contains w) +
        (if strContains (lowerStr text) "feel good" ||
            strContains (lowerStr text) "feeling good" then 1 else 0))
    ∧ ((computeScores text).sad =
      2 * (tokenize (lowerStr text)).countP (fun w => negative_words.contains w) +
        (if strContains (lowerStr text) "feel bad" ||
            strContains (lowerStr text) "feeling bad" then 1 else 0))
    ∧ ((computeScores text).calm =
      2 * (tokenize (lowerStr text)).countP (fun w => calm_words.contains w))
    ∧ ((computeScores text).energetic =
      2 * (tokenize (lowerStr text)).countP (fun w => energetic_words.contains w) +
        (if strContains (lowerStr text) "need energy" ||
            strContains (lowerStr text) "want energy" then 1 else 0))
    ∧ ((computeScores text).chill =
      2 * (tokenize (lowerStr text)).countP (fun w => chill_words.contains w) +
        (if strContains (lowerStr text) "want to relax" ||
            strContains (lowerStr text) "need to chill" then 1 else 0)) := by
  refine ⟨?_, ?_, ?_, ?_, ?_⟩
  · simp [computeScores, phraseBump_happy, baseScores, foldl_scoreWord_happy]
  · simp [computeScores, phraseBump_sad, baseScores, foldl_scoreWord_sad]
  · simp [computeScores, phraseBump_calm, baseScores, foldl_scoreWord_calm]
  · simp [computeScores, phraseBump_energetic, baseScores, foldl_scoreWord_energetic]
  · simp [computeScores, phraseBump_chill, baseScores, foldl_scoreWord_chill]

/-- C7: every id in the final result list of a selection run is pairwise
distinct, for every catalog, enumeration order, jitter, session and
inputs; and the dedup loop of lines 315–322 keeps exactly the first
occurrence of each id in merge order (it equals the spec-side
first-occurrence filter `keepFirstOcc`). -/
theorem result_ids_distinct_first_kept :
    (∀ (cat : Catalog) (pySetList : List String → List String) (jitter : Nat → Int)
        (sess : Session) (cache_key user_mood : String) (avoid_recent : Bool),
      (((get_enhanced_tracks_for_mood cat pySetList jitter sess cache_key user_mood
        avoid_recent).1).map (fun d => d.id)).Nodup)
    ∧ (∀ all_tracks : List Track, dedupLoop all_tracks [] = keepFirstOcc all_tracks) := by
  constructor
  · intro cat ps j sess ck mood ar
    simp only [get_enhanced_tracks_for_mood]
    exact ids_nodup_after_pipeline _ _ _
  · exact dedupLoop_eq_keepFirstOcc

/-- C8: a POST request with no usable mood input (no selection — absent or
empty — and text that is blank after stripping) gets the 400 "Please
select a mood" error, and a GET request without the mood parameter gets
the 400 "Mood parameter missing" error; no mood is resolved and no track
list is produced. -/
theorem no_mood_input_gives_400 (cat : Catalog) (pySetList : List String → List String)
    (jitter : Nat → Int) (sess : Session) (cache_key : String)
    (formMood formMoodText argsMood : Option String) :
    ((formMood.getD "" = "") → (pyStrip (formMoodText.getD "") = "") →
      (generate_playlist cat pySetList jitter sess cache_key true true formMood
        formMoodText argsMood).1 = .err "Please select a mood or describe your mood." 400)
    ∧ ((argsMood.getD "" = "") →
      (generate_playlist cat pySetList jitter sess cache_key true false formMood
        formMoodText argsMood).1 = .err "Mood parameter missing." 400) := by
  constructor
  · intro hm ht
    have hr : resolveMood true formMood formMoodText argsMood =
        .error ("Please select a mood or describe your mood.", 400) := by
      simp [resolveMood, ht, hm]
    simp [generate_playlist, hr]
  · intro ha
    have hr : resolveMood false formMood formMoodText argsMood =
        .error ("Mood parameter missing.", 400) := by
      simp [resolveMood, ha]
    simp [generate_playlist, hr]

/-- C8 (witness): the theorem at the concrete no-input request. -/
theorem no_mood_input_gives_400_witness :
    ((generate_playlist failingCatalog id (fun _ => 0) emptySession "K" true true
      none none none).1 = .err "Please select a mood or describe your mood." 400)
    ∧ ((generate_playlist failingCatalog id (fun _ => 0) emptySession "K" true false
      none none none).1 = .err "Mood parameter missing." 400) :=
  ⟨(no_mood_input_gives_400 failingCatalog id (fun _ => 0) emptySession "K"
      none none none).1 rfl rfl,
   (no_mood_input_gives_400 failingCatalog id (fun _ => 0) emptySession "K"
      none none none).2 rfl⟩

/-- C9: a playlist-materialization request with a missing/empty mood or an
empty `track_ids` list gets the 400 "Missing mood or track_ids" error and
performs no catalog call at all (no user lookup, no playlist creation, no
track insertion). -/
theorem materialization_missing_input_400_no_calls (pcat : PlaylistCatalog)
    (now : String) (mood : Option String) (track_ids : List String)
    (h : mood.getD "" = "" ∨ track_ids = []) :
    create_spotify_playlist pcat true now mood track_ids =
      (.jerr "Missing mood or track_ids" 400, []) := by
  rcases h with h | h
  · simp [create_spotify_playlist, h]
  · subst h
    simp [create_spotify_playlist]

/-- C9 (witness): the theorem at a concrete request with a mood but an
empty id list, against a catalog that would succeed if it were called. -/
theorem materialization_missing_input_400_no_calls_witness :
    create_spotify_playlist pcatOk true "May 01, 2025 at 10:00 AM" (some "happy") [] =
      (.jerr "Missing mood or track_ids" 400, []) :=
  materialization_missing_input_400_no_calls pcatOk "May 01, 2025 at 10:00 AM"
    (some "happy") [] (Or.inr rfl)

/-- C10: every selection run returns at most 20 tracks, for every catalog,
enumeration order, jitter, session and inputs. -/
theorem result_length_at_most_20 (cat : Catalog) (pySetList : List String → List String)
    (jitter : Nat → Int) (sess : Session) (cache_key user_mood : String)
    (avoid_recent : Bool) :
    (get_enhanced_tracks_for_mood cat pySetList jitter sess cache_key user_mood
      avoid_recent).1.length ≤ 20 := by
  simp only [get_enhanced_tracks_for_mood]
  exact List.length_take_le 20 _
